import Mathlib

/-!
Shallow embedding of `src/app.py` (customer retention dashboard).

The dashboard loads a customer table, filters it by segment membership and
churn status, computes scalar metrics over the filtered view, scores churn
risk for a six-feature input through a fitted scaler and classifier, and
renders/exports the top at-risk customers.

Modelling conventions:
* a pandas DataFrame of customer rows is a `List CustomerRecord` (row order
  is list order);
* `pandas.Series.mean()` returns NaN on an empty series; NaN is modelled as
  `none` in an `Option ℚ` result;
* the fitted scaler and classifier are opaque row functions wrapped in
  structures; their sklearn 2-D entry points map the row function over the
  outer list, exactly as sklearn operates row-wise on a 2-D array;
* `pickle.load` outcomes are modelled as `Except String _` values fed to
  `load_model`, which mirrors the `try/except` of lines 23-31.
-/

namespace ChurnDashboard

/-- One row of `data/processed/customer_segments.csv` (columns used by the
dashboard: CustomerID, Segment_Name, Churned, Recency, Frequency, Monetary,
AvgOrderValue). The churned flag is boolean 0/1 per the data model. -/
structure CustomerRecord where
  customerID : Nat
  segment_Name : String
  churned : Bool
  recency : ℚ
  frequency : ℚ
  monetary : ℚ
  avgOrderValue : ℚ
deriving DecidableEq, Repr

/-- The sidebar radio options of line 49-52: "All", "Active Only",
"Churned Only". -/
inductive ChurnFilter
  | all
  | activeOnly
  | churnedOnly
deriving DecidableEq, Repr

/-- Lines 55-59: `filtered_df = df[df['Segment_Name'].isin(segments)]`, then
`filtered_df[filtered_df['Churned'] == 0]` for "Active Only" and
`filtered_df[filtered_df['Churned'] == 1]` for "Churned Only". -/
def filtered_df (df : List CustomerRecord) (segments : List String)
    (churn_filter : ChurnFilter) : List CustomerRecord :=
  let base := df.filter (fun r => segments.contains r.segment_Name)
  match churn_filter with
  | .all => base
  | .activeOnly => base.filter (fun r => r.churned == false)
  | .churnedOnly => base.filter (fun r => r.churned == true)

/-- `pandas.Series.mean()`: arithmetic mean, NaN (modelled `none`) on an
empty series. -/
def seriesMean (xs : List ℚ) : Option ℚ :=
  if xs.isEmpty then none else some (xs.sum / xs.length)

/-- The four KPI values of lines 66-75. `churn_rate` carries the `* 100`
of line 68 (NaN propagates through it). -/
structure Metrics where
  total_customers : Nat
  churn_rate : Option ℚ
  total_revenue : ℚ
  avg_value : Option ℚ
deriving DecidableEq, Repr

/-- Lines 66-75: `len(filtered_df)`, `filtered_df['Churned'].mean() * 100`,
`filtered_df['Monetary'].sum()`, `filtered_df['Monetary'].mean()`. -/
def computeMetrics (v : List CustomerRecord) : Metrics where
  total_customers := v.length
  churn_rate := (seriesMean (v.map fun r => if r.churned then 1 else 0)).map (· * 100)
  total_revenue := (v.map fun r => r.monetary).sum
  avg_value := seriesMean (v.map fun r => r.monetary)

/-- `filtered_df[filtered_df['Churned'] == 1]` of line 242. -/
def churnedRows (v : List CustomerRecord) : List CustomerRecord :=
  v.filter (fun r => r.churned == true)

/-- Line 242: `filtered_df[filtered_df['Churned'] == 1]
.sort_values('Monetary', ascending=False).head(20)`. -/
def at_risk (v : List CustomerRecord) : List CustomerRecord :=
  ((churnedRows v).mergeSort (fun a b => decide (b.monetary ≤ a.monetary))).take 20

/-- Line 254: `csv = at_risk.to_csv(index=False)` — the data rows that the
download button serializes (all columns, unformatted). -/
def csvExportRows (v : List CustomerRecord) : List CustomerRecord :=
  at_risk v

/-- The two rendering branches of lines 244-262: a table of the selected
rows when `len(at_risk) > 0`, otherwise the "No at-risk customers" message. -/
inductive AtRiskSection
  | table (rows : List CustomerRecord)
  | noAtRiskMessage
deriving DecidableEq, Repr

/-- Lines 244 and 261-262: branch on `len(at_risk) > 0`. -/
def atRiskSection (v : List CustomerRecord) : AtRiskSection :=
  if (at_risk v).length > 0 then .table (at_risk v) else .noAtRiskMessage

/-- The fitted scaler artifact (`outputs/models/scaler.pkl`): an opaque
row-wise transform on 6-feature vectors. -/
structure ScalerArtifact where
  transformRow : List ℚ → List ℚ

/-- The fitted classifier artifact (`outputs/models/churn_model.pkl`): an
opaque row-wise map from a feature vector to a class-probability vector
(index 0 = not churned, index 1 = churned). -/
structure PredictorArtifact where
  predictProbaRow : List ℚ → List ℚ

/-- sklearn `scaler.transform` on a 2-D array: the row transform mapped over
the rows. -/
def ScalerArtifact.transform (s : ScalerArtifact) (X : List (List ℚ)) :
    List (List ℚ) :=
  X.map s.transformRow

/-- sklearn `model.predict_proba` on a 2-D array: the row predictor mapped
over the rows. -/
def PredictorArtifact.predict_proba (m : PredictorArtifact) (X : List (List ℚ)) :
    List (List ℚ) :=
  X.map m.predictProbaRow

/-- Line 178: `features = np.array([[recency, frequency, monetary, avg_order,
avg_days_between, is_one_time]])` — a 2-D array with one row, features in
this fixed order. -/
def features (recency frequency monetary avg_order avg_days_between
    is_one_time : ℚ) : List (List ℚ) :=
  [[recency, frequency, monetary, avg_order, avg_days_between, is_one_time]]

/-- Lines 179-182: `features_scaled = scaler.transform(features)` then
`churn_prob = model.predict_proba(features_scaled)[0][1]` (out-of-range
indexing defaults to an empty row / probability 0 in the embedding). -/
def churn_prob (model : PredictorArtifact) (scaler : ScalerArtifact)
    (recency frequency monetary avg_order avg_days_between is_one_time : ℚ) : ℚ :=
  let features_scaled := scaler.transform
    (features recency frequency monetary avg_order avg_days_between is_one_time)
  ((model.predict_proba features_scaled).getD 0 []).getD 1 0

/-- Spec-side formulation of the scoring pipeline, written from the spec's
words: assemble the six inputs into one ordered vector (recency, frequency,
monetary, average order value, average days between purchases, one-time
flag), transform that single row through the scaler, invoke the classifier's
probability function on the scaled row, and take the probability at class
index 1. -/
def churn_prob_spec (model : PredictorArtifact) (scaler : ScalerArtifact)
    (recency frequency monetary avg_order avg_days_between is_one_time : ℚ) : ℚ :=
  (model.predictProbaRow (scaler.transformRow
    [recency, frequency, monetary, avg_order, avg_days_between, is_one_time])).getD 1 0

/-- The three risk tiers of lines 194-199. -/
inductive RiskTier
  | low
  | moderate
  | high
deriving DecidableEq, Repr

/-- Lines 194-199: `if churn_prob > 0.7` → HIGH, `elif churn_prob > 0.5` →
MODERATE, `else` → LOW. -/
def riskTier (churn_prob : ℚ) : RiskTier :=
  if churn_prob > 0.7 then .high
  else if churn_prob > 0.5 then .moderate
  else .low

/-- The four recommended actions of lines 203-211. -/
inductive RecommendedAction
  | highValuePersonalOutreach
  | standardDiscountCode
  | reengagementEmail
  | continueNormalJourney
deriving DecidableEq, Repr

/-- Lines 203-211: `if churn_prob > 0.7` then split on `monetary > 2000`
(high-value personal outreach vs standard discount code), `elif churn_prob
> 0.5` → re-engagement email, `else` → continue normal journey. -/
def recommendedAction (churn_prob monetary : ℚ) : RecommendedAction :=
  if churn_prob > 0.7 then
    if monetary > 2000 then .highValuePersonalOutreach
    else .standardDiscountCode
  else if churn_prob > 0.5 then .reengagementEmail
  else .continueNormalJourney

/-- Lines 23-31: `load_model` deserializes the classifier and then the
scaler inside one `try`; any failure in either load is swallowed by the bare
`except` and the function returns `(None, None)`. A `pickle.load` outcome is
an `Except String` value; the second load is never reached when the first
fails, which the match captures. -/
def load_model {M S : Type} (model_load : Except String M)
    (scaler_load : Except String S) : Option M × Option S :=
  match model_load, scaler_load with
  | .ok model, .ok scaler => (some model, some scaler)
  | _, _ => (none, none)

/-- Line 152: `if model is not None and scaler is not None` — the gate that
enables the churn-prediction tool. -/
def predictionToolEnabled {M S : Type} (p : Option M × Option S) : Bool :=
  p.1.isSome && p.2.isSome

/-- The churn-status predicate of lines 56-59 as a single boolean test:
"All" matches both flag values, "Active Only" matches churned = 0, "Churned
Only" matches churned = 1. -/
def churnMatches (cf : ChurnFilter) (c : Bool) : Bool :=
  match cf with
  | .all => true
  | .activeOnly => c == false
  | .churnedOnly => c == true

/-- A three-row sample table (segments A, B, A; churned 1, 0, 1; monetary
100, 200, 300) used to instantiate the general theorems. -/
def sampleTable : List CustomerRecord :=
  [{ customerID := 1, segment_Name := "A", churned := true, recency := 10,
     frequency := 2, monetary := 100, avgOrderValue := 50 },
   { customerID := 2, segment_Name := "B", churned := false, recency := 20,
     frequency := 3, monetary := 200, avgOrderValue := 60 },
   { customerID := 3, segment_Name := "A", churned := true, recency := 30,
     frequency := 4, monetary := 300, avgOrderValue := 70 }]

/-- A single active (not churned) customer row. -/
def sampleActiveRow : CustomerRecord :=
  { customerID := 7, segment_Name := "A", churned := false, recency := 5,
    frequency := 6, monetary := 400, avgOrderValue := 66 }

/-- A filtered view with 25 churned rows (distinct monetary values
1, 2, ..., 25). -/
def sampleChurned25 : List CustomerRecord :=
  (List.range 25).map fun i =>
    { customerID := i, segment_Name := "A", churned := true, recency := 100,
      frequency := 2, monetary := (i : ℚ) + 1, avgOrderValue := 5 }

/-! ## Theorems -/

/-- The two-stage filtering of lines 55-59 equals one filter by the
conjunction of the segment-membership test and the churn-status test. -/
theorem filtered_df_eq_filter (df : List CustomerRecord) (segments : List String)
    (cf : ChurnFilter) :
    filtered_df df segments cf
      = df.filter (fun r =>
          segments.contains r.segment_Name && churnMatches cf r.churned) := by
  cases cf <;>
    simp [filtered_df, churnMatches, List.filter_filter, Bool.and_comm]

/-- C5: the Filter Engine returns exactly the rows whose segment label is in
the allowed set and whose churn flag matches the mode predicate, in source
order (it equals a single `List.filter` over the source table), and an empty
segment set yields an empty view regardless of table contents. -/
theorem C5_filter_engine (df : List CustomerRecord) (segments : List String)
    (cf : ChurnFilter) :
    filtered_df df segments cf
      = df.filter (fun r =>
          segments.contains r.segment_Name && churnMatches cf r.churned) ∧
    filtered_df df [] cf = [] := by
  refine ⟨filtered_df_eq_filter df segments cf, ?_⟩
  rw [filtered_df_eq_filter]
  simp

/-- C6: the ALL-mode output is a permutation of the concatenation of the
ACTIVE_ONLY-mode and CHURNED_ONLY-mode outputs (no omission, no
duplication), and those two outputs are disjoint. -/
theorem C6_mode_partition (df : List CustomerRecord) (segments : List String) :
    (filtered_df df segments .all).Perm
      (filtered_df df segments .activeOnly ++ filtered_df df segments .churnedOnly) ∧
    List.Disjoint (filtered_df df segments .activeOnly)
      (filtered_df df segments .churnedOnly) := by
  have hq : ∀ x : CustomerRecord,
      (!(x.churned == false)) = (x.churned == true) := by
    intro x; cases x.churned <;> rfl
  constructor
  · simp only [filtered_df]
    have h1 := List.filter_append_perm (fun r : CustomerRecord => r.churned == false)
      (df.filter (fun r => segments.contains r.segment_Name))
    rw [List.filter_congr (fun x _ => hq x)] at h1
    exact h1.symm
  · intro r hr0 hr1
    simp only [filtered_df, List.mem_filter, beq_iff_eq] at hr0 hr1
    rw [hr0.2] at hr1
    exact Bool.false_ne_true hr1.2

/-- C6 witness: the partition at the concrete sample table with segment
set A. -/
theorem C6_witness :
    (filtered_df sampleTable ["A"] .all).Perm
      (filtered_df sampleTable ["A"] .activeOnly
        ++ filtered_df sampleTable ["A"] .churnedOnly) :=
  (C6_mode_partition sampleTable ["A"]).1

/-- C9: the at-risk display selection is the churned rows of the view,
sorted descending by monetary, truncated to the first 20 (so never more
than 20, and fewer when fewer churned rows exist), and when the selection
is empty the section renders the no-at-risk message rather than failing. -/
theorem C9_at_risk_selection (v : List CustomerRecord) :
    (∃ sortedRows : List CustomerRecord,
        sortedRows.Perm (churnedRows v) ∧
        List.Sorted (fun a b => b.monetary ≤ a.monetary) sortedRows ∧
        at_risk v = sortedRows.take 20) ∧
    (at_risk v).length ≤ 20 ∧
    (churnedRows v = [] → at_risk v = [] ∧ atRiskSection v = .noAtRiskMessage) := by
  refine ⟨⟨(churnedRows v).mergeSort (fun a b => decide (b.monetary ≤ a.monetary)),
      List.mergeSort_perm _ _, ?_, rfl⟩, List.length_take_le _ _, ?_⟩
  · have h := @List.sorted_mergeSort CustomerRecord
      (fun a b => decide (b.monetary ≤ a.monetary))
      (fun a b c hab hbc => by
        simp only [decide_eq_true_eq] at hab hbc ⊢
        exact le_trans hbc hab)
      (fun a b => by
        simp only [Bool.or_eq_true, decide_eq_true_eq]
        exact le_total b.monetary a.monetary)
      (churnedRows v)
    exact h.imp (fun hab => by simpa using hab)
  · intro h
    have hnil : at_risk v = [] := by simp [at_risk, h]
    exact ⟨hnil, by simp [atRiskSection, hnil]⟩

/-- C9 witness: a view holding one active customer has an empty at-risk
selection and renders the no-at-risk message. -/
theorem C9_witness :
    at_risk [sampleActiveRow] = [] ∧
    atRiskSection [sampleActiveRow] = .noAtRiskMessage :=
  (C9_at_risk_selection [sampleActiveRow]).2.2 (by decide)

/-- C10: in ACTIVE_ONLY mode the filtered view has no churned rows, so the
at-risk selection is empty and the dashboard shows the no-at-risk state,
for every table and segment set. -/
theorem C10_active_only_no_at_risk (df : List CustomerRecord)
    (segments : List String) :
    at_risk (filtered_df df segments .activeOnly) = [] ∧
    atRiskSection (filtered_df df segments .activeOnly) = .noAtRiskMessage := by
  have hempty : churnedRows (filtered_df df segments .activeOnly) = [] := by
    simp only [churnedRows, filtered_df, List.filter_filter]
    refine List.filter_eq_nil_iff.mpr ?_
    intro a _
    cases h : a.churned <;> simp [h]
  refine ⟨?_, ?_⟩
  · simp [at_risk, hempty]
  · simp [atRiskSection, at_risk, hempty]

/-- C1 (code evaluation): on a view with 25 churned rows, the CSV export of
line 254 serializes the head(20)-truncated `at_risk` frame, so the download
has 20 data rows, not 25 — contradicting the "Download Full At-Risk
Customers List" label. -/
theorem C1_export_truncated_to_20 :
    (churnedRows sampleChurned25).length = 25 ∧
    (csvExportRows sampleChurned25).length = 20 := by
  have hlen : (churnedRows sampleChurned25).length = 25 := by
    decide
  refine ⟨hlen, ?_⟩
  simp [csvExportRows, at_risk, List.length_take, List.length_mergeSort, hlen]

/-- C2 counterexample: on the empty view the code's churn rate and average
value are the NaN of pandas `mean()` on an empty column (modelled `none`),
not 0. -/
theorem C2_counterexample :
    ¬((computeMetrics []).churn_rate = some 0 ∧
      (computeMetrics []).avg_value = some 0) := by
  decide

/-- C2 amended: on the empty view the Metrics Aggregator yields count 0 and
total revenue 0, and churn rate and average value are NaN (`none`), with no
division error raised. -/
theorem C2_empty_view_metrics :
    (computeMetrics []).total_customers = 0 ∧
    (computeMetrics []).total_revenue = 0 ∧
    (computeMetrics []).churn_rate = none ∧
    (computeMetrics []).avg_value = none := by
  decide

/-- C3: for every churn probability p in [0,1], the risk tier is HIGH iff
p > 0.70, MODERATE iff 0.50 < p ≤ 0.70, and LOW iff p ≤ 0.50; in
particular p = 0.70 yields MODERATE and p = 0.50 yields LOW (both boundary
comparisons are strict). -/
theorem C3_risk_tier_boundaries (p : ℚ) (h0 : 0 ≤ p) (h1 : p ≤ 1) :
    (riskTier p = .high ↔ 0.7 < p) ∧
    (riskTier p = .moderate ↔ 0.5 < p ∧ p ≤ 0.7) ∧
    (riskTier p = .low ↔ p ≤ 0.5) ∧
    riskTier 0.7 = .moderate ∧ riskTier 0.5 = .low := by
  refine ⟨?_, ?_, ?_, by norm_num [riskTier], by norm_num [riskTier]⟩ <;>
  · unfold riskTier
    split_ifs with h h2 <;> simp_all <;>
      first
      | linarith
      | (constructor <;> intros <;> linarith)

/-- C3 witness: the boundary facts hold at the concrete probability 0.6. -/
theorem C3_witness :
    (riskTier 0.6 = .moderate ↔ 0.5 < (0.6 : ℚ) ∧ (0.6 : ℚ) ≤ 0.7) ∧
    riskTier 0.7 = .moderate ∧ riskTier 0.5 = .low :=
  ⟨(C3_risk_tier_boundaries 0.6 (by norm_num) (by norm_num)).2.1,
   (C3_risk_tier_boundaries 0.6 (by norm_num) (by norm_num)).2.2.2.1,
   (C3_risk_tier_boundaries 0.6 (by norm_num) (by norm_num)).2.2.2.2⟩

/-- C4: the recommended action is the high-value personal-outreach action
iff the tier is HIGH and monetary > 2000, the standard discount-code action
iff the tier is HIGH and monetary ≤ 2000, the re-engagement email iff the
tier is MODERATE, and continue-normal-journey iff the tier is LOW; at the
HIGH probability 0.8, monetary = 2000 gets the standard action and 2001 the
high-value action. -/
theorem C4_action_selection (p monetary : ℚ) :
    (recommendedAction p monetary = .highValuePersonalOutreach ↔
      riskTier p = .high ∧ 2000 < monetary) ∧
    (recommendedAction p monetary = .standardDiscountCode ↔
      riskTier p = .high ∧ monetary ≤ 2000) ∧
    (recommendedAction p monetary = .reengagementEmail ↔ riskTier p = .moderate) ∧
    (recommendedAction p monetary = .continueNormalJourney ↔ riskTier p = .low) ∧
    riskTier 0.8 = .high ∧
    recommendedAction 0.8 2000 = .standardDiscountCode ∧
    recommendedAction 0.8 2001 = .highValuePersonalOutreach := by
  refine ⟨?_, ?_, ?_, ?_, by norm_num [riskTier],
    by norm_num [recommendedAction], by norm_num [recommendedAction]⟩ <;>
  · unfold recommendedAction riskTier
    split_ifs with h h2 <;> simp_all <;>
      first
      | linarith
      | (constructor <;> intros <;> linarith)

/-- C7: the Risk Scorer assembles the six inputs in the fixed order
(recency, frequency, monetary, avg order value, avg days between, one-time
flag), passes the vector through the scaler's transform before the
classifier, and takes the classifier's probability at class index 1 — the
source pipeline (2-D array, `[0][1]` indexing) equals the spec-side
single-row composition. -/
theorem C7_feature_pipeline (model : PredictorArtifact) (scaler : ScalerArtifact)
    (recency frequency monetary avg_order avg_days_between is_one_time : ℚ) :
    churn_prob model scaler recency frequency monetary avg_order avg_days_between is_one_time
      = churn_prob_spec model scaler recency frequency monetary avg_order
          avg_days_between is_one_time := by
  simp [churn_prob, churn_prob_spec, features, ScalerArtifact.transform,
    PredictorArtifact.predict_proba]

/-- C8: if either artifact deserialization fails, `load_model` returns the
sentinel pair (none, none) instead of propagating the failure, and the
prediction tool is enabled exactly when both halves of the returned pair
are present, i.e. when both loads succeeded. -/
theorem C8_load_model_soft_degrade {M S : Type} (model_load : Except String M)
    (scaler_load : Except String S) :
    (∀ e, model_load = .error e → load_model model_load scaler_load = (none, none)) ∧
    (∀ e, scaler_load = .error e → load_model model_load scaler_load = (none, none)) ∧
    (predictionToolEnabled (load_model model_load scaler_load) = true ↔
      ∃ m s, model_load = .ok m ∧ scaler_load = .ok s) := by
  cases model_load <;> cases scaler_load <;>
    simp [load_model, predictionToolEnabled]

/-- C8 witness: a failed classifier load yields the (none, none) sentinel,
and two successful loads enable the prediction tool. -/
theorem C8_witness :
    load_model (Except.error "corrupt" : Except String Nat)
      (Except.ok 1 : Except String Nat) = (none, none) ∧
    predictionToolEnabled (load_model (Except.ok 2 : Except String Nat)
      (Except.ok 3 : Except String Nat)) = true :=
  ⟨(C8_load_model_soft_degrade (Except.error "corrupt") (Except.ok 1)).1 "corrupt" rfl,
   (C8_load_model_soft_degrade (Except.ok 2) (Except.ok 3)).2.2.mpr ⟨2, 3, rfl, rfl⟩⟩

end ChurnDashboard
